import Mathlib

/-!
Verification development for the interrupt-handling core of the
limin-rust-x64 kernel (files `kernel/src/kernel/{idt,interrupts,
interrupts_asm,pic,timer}.rs`).

The Rust code is shallowly embedded: port output (`out dx, al`) is
recorded as a list of `(port, byte)` pairs in program order, the two
interrupt-controller mask registers are explicit 8-bit state, machine
integers are `Nat` with explicit `% 2 ^ w` where wrap-around matters,
and a Rust panic (division by zero) is `Option.none`.
-/

/-- A single `out dx, al` instruction: (port, byte written). -/
abbrev PortWrite := Nat × Nat

namespace Pic

/-- Port constants from `pic.rs`. -/
def PIC1_COMMAND : Nat := 0x20
def PIC1_DATA : Nat := 0x21
def PIC2_COMMAND : Nat := 0xA0
def PIC2_DATA : Nat := 0xA1
def PIC_EOI : Nat := 0x20

/-- `pic.rs::send_eoi`: if `irq >= 8` write the EOI command to the
subordinate (slave) chip command port first, then always write it to the
cascade (master) chip command port.  The result is the list of port
writes the call performs, in order. -/
def send_eoi (irq : Nat) : List PortWrite :=
  (if 8 ≤ irq then [(PIC2_COMMAND, PIC_EOI)] else []) ++ [(PIC1_COMMAND, PIC_EOI)]

/-- The two 8-bit interrupt-mask registers (device state read and written
by `unmask_irq` / `mask_irq` through ports 0x21 and 0xA1). -/
structure Masks where
  master : Nat
  slave : Nat
deriving DecidableEq

/-- `pic.rs::unmask_irq`: read the mask register of the chip owning the
line, clear the bit for the line (`mask &= !(1 << irq_bit)` on `u8`),
write it back.  Only the addressed register changes. -/
def unmask_irq (irq : Nat) (s : Masks) : Masks :=
  if irq < 8 then
    { s with master := s.master &&& (255 ^^^ ((1 <<< irq) % 256)) }
  else
    { s with slave := s.slave &&& (255 ^^^ ((1 <<< (irq - 8)) % 256)) }

/-- `pic.rs::mask_irq`: read the mask register of the chip owning the
line, set the bit for the line (`mask |= 1 << irq_bit` on `u8`), write it
back. -/
def mask_irq (irq : Nat) (s : Masks) : Masks :=
  if irq < 8 then
    { s with master := s.master ||| ((1 <<< irq) % 256) }
  else
    { s with slave := s.slave ||| ((1 <<< (irq - 8)) % 256) }

end Pic

namespace Timer

/-- Result of `timer.rs::init`: either the divisor check fails (the
function logs and returns before touching any port) or the device is
programmed by the recorded port writes, in order. -/
inductive InitResult where
  | rejected (divisor : Nat)
  | programmed (writes : List PortWrite)
deriving DecidableEq

/-- `timer.rs::init(freq_hz)`: computes `divisor = 1_193_182 / freq_hz`
(u32 division; Rust panics on `freq_hz = 0`, modelled as `none`); if the
divisor exceeds `0xFFFF` it returns without any port write; otherwise it
writes the mode command `0x34` to port `0x43`, then the divisor low byte,
then the divisor high byte, to port `0x40`. -/
def init (freq_hz : Nat) : Option InitResult :=
  if freq_hz = 0 then
    none
  else
    let divisor := 1193182 / freq_hz
    if divisor > 0xFFFF then
      some (.rejected divisor)
    else
      some (.programmed
        [(0x43, 0x34), (0x40, divisor % 256), (0x40, (divisor / 256) % 256)])

/-- `timer.rs::get_uptime_ms`: `TIMER_TICKS * 10`, a pure function of the
tick count (hard-coded assumption of a 100 Hz timer); no port access. -/
def get_uptime_ms (ticks : Nat) : Nat := ticks * 10

/-- `timer.rs::get_uptime_seconds`: `TIMER_TICKS / 100`, a pure function
of the tick count (hard-coded assumption of a 100 Hz timer); no port
access. -/
def get_uptime_seconds (ticks : Nat) : Nat := ticks / 100

/-- The uptime formula the specification states: milliseconds as
`ticks * 1000 / F` for the configured frequency `F`.  Follows the words
of the spec, for comparison with `get_uptime_ms`. -/
def specUptimeMs (ticks freq : Nat) : Nat := ticks * 1000 / freq

/-- The uptime formula the specification states: seconds as `ticks / F`
for the configured frequency `F`.  Follows the words of the spec, for
comparison with `get_uptime_seconds`. -/
def specUptimeSeconds (ticks freq : Nat) : Nat := ticks / freq

end Timer

/-- C5: `send_eoi` writes the EOI command `0x20` to the cascade (master)
chip command port `0x20` on every call, and writes it to the subordinate
(slave) chip command port `0xA0` exactly when the line is `>= 8`; in
particular `send_eoi 12` acknowledges both chips and `send_eoi 1` only
the cascade chip. -/
theorem send_eoi_chips (irq : Nat) (h : irq < 16) :
    ((Pic.PIC1_COMMAND, Pic.PIC_EOI) ∈ Pic.send_eoi irq) ∧
    (((Pic.PIC2_COMMAND, Pic.PIC_EOI) ∈ Pic.send_eoi irq) ↔ 8 ≤ irq) ∧
    Pic.send_eoi 12 = [(0xA0, 0x20), (0x20, 0x20)] ∧
    Pic.send_eoi 1 = [(0x20, 0x20)] := by
  unfold Pic.send_eoi Pic.PIC1_COMMAND Pic.PIC2_COMMAND Pic.PIC_EOI
  by_cases h8 : 8 ≤ irq <;> simp [h8]

/-- Witness for `send_eoi_chips` at line 12. -/
theorem send_eoi_chips_witness :
    (Pic.PIC2_COMMAND, Pic.PIC_EOI) ∈ Pic.send_eoi 12 :=
  ((send_eoi_chips 12 (by decide)).2.1).mpr (by decide)

/-- C6: `timer::init(freq_hz)` computes `divisor = 1193182 / freq_hz`;
if the divisor exceeds `0xFFFF` (e.g. `freq_hz = 1`) it returns without
any timer port write; otherwise (e.g. `freq_hz = 100`, divisor `11931`)
it writes the mode command byte, the divisor low byte, then the divisor
high byte, in that order. -/
theorem timer_init_divisor (freq : Nat) (h : 1 ≤ freq) :
    (0xFFFF < 1193182 / freq →
      Timer.init freq = some (.rejected (1193182 / freq))) ∧
    (1193182 / freq ≤ 0xFFFF →
      Timer.init freq = some (.programmed
        [(0x43, 0x34), (0x40, (1193182 / freq) % 256),
         (0x40, (1193182 / freq / 256) % 256)])) ∧
    Timer.init 1 = some (.rejected 1193182) ∧
    Timer.init 100 = some (.programmed [(0x43, 0x34), (0x40, 0x9B), (0x40, 0x2E)]) := by
  have hne : freq ≠ 0 := by omega
  refine ⟨?_, ?_, by decide, by decide⟩ <;> intro hd <;>
    simp [Timer.init, hne, hd]

/-- Witness for `timer_init_divisor` at `freq_hz = 100`. -/
theorem timer_init_divisor_witness :
    Timer.init 100 = some (.programmed [(0x43, 0x34), (0x40, 0x9B), (0x40, 0x2E)]) :=
  (timer_init_divisor 100 (by decide)).2.2.2

/-- C10: the division `1193182 / freq_hz` is performed before any
validity check and has no guard against zero: for every `freq_hz >= 1`
the call is total (no panic), while `freq_hz = 0` hits the unguarded
division (Rust division-by-zero panic, modelled as `none`) rather than
any error branch of the function. -/
theorem timer_init_total (freq : Nat) (h : 1 ≤ freq) :
    (Timer.init freq).isSome ∧ Timer.init 0 = none := by
  have hne : freq ≠ 0 := by omega
  refine ⟨?_, by decide⟩
  simp [Timer.init, hne]
  by_cases hd : 0xFFFF < 1193182 / freq <;> simp [hd]

/-- Witness for `timer_init_total` at `freq_hz = 1`. -/
theorem timer_init_total_witness : (Timer.init 1).isSome :=
  (timer_init_total 1 (by decide)).1

/-- C7 counterexample: with the master mask register initially `0`
(line 3 already unmasked), `unmask_irq 3` followed by `mask_irq 3` leaves
the register at `8`, not at its pre-unmask value `0` — the round trip
SETS bit 3 rather than restoring it. -/
theorem mask_roundtrip_cex :
    Pic.mask_irq 3 (Pic.unmask_irq 3 ⟨0, 0⟩) = ⟨8, 0⟩ ∧
    (⟨8, 0⟩ : Pic.Masks) ≠ ⟨0, 0⟩ := by
  constructor
  · simp [Pic.unmask_irq, Pic.mask_irq]
  · decide

set_option maxRecDepth 100000 in
/-- C7 amended: if bit 3 of the master mask register was set before the
unmask (line 3 masked, as after `pic::init`), `unmask_irq 3` followed by
`mask_irq 3` restores the register exactly; in every case both
operations leave the slave register untouched and change no bit of the
master register other than bit 3. -/
theorem mask_roundtrip (m s : Nat) (hm : m < 256) :
    (Nat.testBit m 3 = true →
      Pic.mask_irq 3 (Pic.unmask_irq 3 ⟨m, s⟩) = ⟨m, s⟩) ∧
    (Pic.unmask_irq 3 ⟨m, s⟩).slave = s ∧
    (Pic.mask_irq 3 ⟨m, s⟩).slave = s ∧
    (∀ k < 8, k ≠ 3 →
      Nat.testBit (Pic.unmask_irq 3 ⟨m, s⟩).master k = Nat.testBit m k) ∧
    (∀ k < 8, k ≠ 3 →
      Nat.testBit (Pic.mask_irq 3 ⟨m, s⟩).master k = Nat.testBit m k) := by
  have h1 : ∀ m' < 256, Nat.testBit m' 3 = true →
      (m' &&& (255 ^^^ ((1 <<< 3) % 256))) ||| ((1 <<< 3) % 256) = m' := by decide
  have h2 : ∀ m' < 256, ∀ k < 8, k ≠ 3 →
      Nat.testBit (m' &&& (255 ^^^ ((1 <<< 3) % 256))) k = Nat.testBit m' k := by decide
  have h3 : ∀ m' < 256, ∀ k < 8, k ≠ 3 →
      Nat.testBit (m' ||| ((1 <<< 3) % 256)) k = Nat.testBit m' k := by decide
  refine ⟨?_, rfl, rfl, ?_, ?_⟩
  · intro hbit
    show (⟨(m &&& (255 ^^^ ((1 <<< 3) % 256))) ||| ((1 <<< 3) % 256), s⟩ : Pic.Masks)
      = ⟨m, s⟩
    rw [h1 m hm hbit]
  · intro k hk hk3
    show Nat.testBit (m &&& (255 ^^^ ((1 <<< 3) % 256))) k = Nat.testBit m k
    exact h2 m hm k hk hk3
  · intro k hk hk3
    show Nat.testBit (m ||| ((1 <<< 3) % 256)) k = Nat.testBit m k
    exact h3 m hm k hk hk3

/-- Witness for `mask_roundtrip` at master mask `0xFF` (the state after
`pic::init` masks all lines). -/
theorem mask_roundtrip_witness :
    Pic.mask_irq 3 (Pic.unmask_irq 3 ⟨0xFF, 0xFF⟩) = ⟨0xFF, 0xFF⟩ :=
  (mask_roundtrip 0xFF 0xFF (by decide)).1 (by decide)

/-- C9 counterexample: with the timer configured at 50 Hz (a frequency
`timer::init` accepts: divisor 23863 fits in 16 bits) and one tick
elapsed, `get_uptime_ms` returns `10` while the claimed formula
`ticks * 1000 / F` gives `20` — the code hard-codes 100 Hz and ignores
the configured frequency. -/
theorem uptime_cex :
    Timer.init 50 = some (.programmed [(0x43, 0x34), (0x40, 0x37), (0x40, 0x5D)]) ∧
    Timer.get_uptime_ms 1 = 10 ∧ Timer.specUptimeMs 1 50 = 20 ∧
    Timer.get_uptime_ms 1 ≠ Timer.specUptimeMs 1 50 := by
  refine ⟨by decide, rfl, by decide, by decide⟩

/-- C9 amended: `get_uptime_ms` and `get_uptime_seconds` are pure
functions of the tick count alone, with the frequency hard-coded to
100 Hz: they equal the spec formulas `ticks * 1000 / F` and `ticks / F`
exactly when `F = 100`; no hardware access is performed (both are plain
arithmetic on the tick counter). -/
theorem uptime_pure (ticks : Nat) :
    Timer.get_uptime_ms ticks = Timer.specUptimeMs ticks 100 ∧
    Timer.get_uptime_seconds ticks = Timer.specUptimeSeconds ticks 100 := by
  constructor
  · simp only [Timer.get_uptime_ms, Timer.specUptimeMs]
    omega
  · rfl

/-! ## Interrupt frame, trampoline and dispatcher
(`interrupts.rs`, `interrupts_asm.rs`) -/

/-- The 15 general-purpose registers at the moment a vector fires. -/
structure RegFile where
  rax : Nat
  rbx : Nat
  rcx : Nat
  rdx : Nat
  rbp : Nat
  rsi : Nat
  rdi : Nat
  r8 : Nat
  r9 : Nat
  r10 : Nat
  r11 : Nat
  r12 : Nat
  r13 : Nat
  r14 : Nat
  r15 : Nat
deriving DecidableEq

/-- `interrupts.rs::InterruptFrame`: the stack-resident record, fields in
memory order (lowest address first: r15 was pushed last). -/
structure InterruptFrame where
  r15 : Nat
  r14 : Nat
  r13 : Nat
  r12 : Nat
  r11 : Nat
  r10 : Nat
  r9 : Nat
  r8 : Nat
  rdi : Nat
  rsi : Nat
  rbp : Nat
  rdx : Nat
  rcx : Nat
  rbx : Nat
  rax : Nat
  int_no : Nat
  err_code : Nat
  rip : Nat
  cs : Nat
  rflags : Nat
  rsp : Nat
  ss : Nat
deriving DecidableEq

/-- The frame produced by the push sequence of `isr_common_stub`
(`push rax; push rbx; ...; push r15`) on top of the vector number, fault
code and CPU-pushed tail already on the stack: each register value lands
in its slot of `InterruptFrame`. -/
def mkFrame (g : RegFile) (int_no err_code rip cs rflags rsp ss : Nat) :
    InterruptFrame :=
  { r15 := g.r15, r14 := g.r14, r13 := g.r13, r12 := g.r12, r11 := g.r11
    r10 := g.r10, r9 := g.r9, r8 := g.r8, rdi := g.rdi, rsi := g.rsi
    rbp := g.rbp, rdx := g.rdx, rcx := g.rcx, rbx := g.rbx, rax := g.rax
    int_no := int_no, err_code := err_code
    rip := rip, cs := cs, rflags := rflags, rsp := rsp, ss := ss }

/-- The pop sequence of `isr_common_stub` (`pop r15; ...; pop rax`): the
register file loaded from the (possibly handler-modified) frame slots. -/
def popRegs (f : InterruptFrame) : RegFile :=
  { rax := f.rax, rbx := f.rbx, rcx := f.rcx, rdx := f.rdx, rbp := f.rbp
    rsi := f.rsi, rdi := f.rdi, r8 := f.r8, r9 := f.r9, r10 := f.r10
    r11 := f.r11, r12 := f.r12, r13 := f.r13, r14 := f.r14, r15 := f.r15 }

/-- `u64::MAX`, the error sentinel of the system-call handler. -/
def U64_MAX : Nat := 2 ^ 64 - 1

/-- `interrupts.rs::handle_system_call`: call number in `rax`;
`0` (write) and `1` (exit) only log; any other number writes the error
sentinel `u64::MAX` into the saved `rax` slot of the frame. -/
def handle_system_call (f : InterruptFrame) : InterruptFrame :=
  if f.rax = 0 then f
  else if f.rax = 1 then f
  else { f with rax := U64_MAX }

/-- Outcome of one dispatcher invocation: `halted` when the dispatcher
never returns (null frame, out-of-range vector, or a CPU exception routed
to the fatal diagnostics path), otherwise the frame as left by the
handler, the tick counter, and the port writes performed. -/
inductive Dispatch where
  | halted
  | returned (frame : InterruptFrame) (ticks : Nat) (eoi : List PortWrite)
deriving DecidableEq

/-- `interrupts.rs::isr_common_handler`: null-frame and range checks
(both fatal), then the match on the vector number.  Vectors 0-31 route to
`handle_cpu_exception_64`, which ends in `halt_system` and never returns;
32 increments `TIMER_TICKS` and acknowledges line 0; 33 reads the
keyboard port and acknowledges line 1; 34-47 acknowledge the appropriate
line (cascade acknowledgment for >= 40); 48-127 and 129-255 only log;
128 runs the system-call handler. -/
def isr_common_handler (frame : Option InterruptFrame) (ticks : Nat) :
    Dispatch :=
  match frame with
  | none => .halted
  | some f =>
      if 255 < f.int_no then .halted
      else if f.int_no ≤ 31 then .halted
      else if f.int_no = 32 then .returned f (ticks + 1) (Pic.send_eoi 0)
      else if f.int_no = 33 then .returned f ticks (Pic.send_eoi 1)
      else if f.int_no ≤ 47 then
        .returned f ticks
          (Pic.send_eoi (if 40 ≤ f.int_no then f.int_no - 32 else 0))
      else if f.int_no ≤ 127 then .returned f ticks []
      else if f.int_no = 128 then
        .returned (handle_system_call f) ticks []
      else .returned f ticks []

/-- Outcome of a whole interrupt occurrence as seen at the `iretq`
instruction: the general-purpose register values restored by the pop
sequence, or `halted` when the dispatcher never came back. -/
inductive IsrOutcome where
  | halted
  | iretq (regs : RegFile) (ticks : Nat) (eoi : List PortWrite)
deriving DecidableEq

/-- `interrupts_asm.rs::isr_common_stub`: push all fifteen registers
(building `InterruptFrame` on the stack), call `isr_common_handler` with
a pointer to it, then pop all fifteen registers in reverse order and
discard the vector number and fault code before `iretq`. -/
def isr_common_stub (g : RegFile)
    (int_no err_code rip cs rflags rsp ss ticks : Nat) : IsrOutcome :=
  match isr_common_handler (some (mkFrame g int_no err_code rip cs rflags rsp ss)) ticks with
  | .halted => .halted
  | .returned f t w => .iretq (popRegs f) t w

/-- Case split on the dispatcher used by several proofs: it halts,
returns the frame untouched, or (vector 128 only) returns the frame as
rewritten by the system-call handler. -/
theorem dispatch_cases (f : InterruptFrame) (ticks : Nat) :
    isr_common_handler (some f) ticks = .halted ∨
    (∃ t w, isr_common_handler (some f) ticks = .returned f t w) ∨
    (f.int_no = 128 ∧
      isr_common_handler (some f) ticks
        = .returned (handle_system_call f) ticks []) := by
  simp only [isr_common_handler]
  split_ifs <;>
    first
      | exact Or.inl rfl
      | exact Or.inr (Or.inl ⟨_, _, rfl⟩)
      | (rename_i h128; exact Or.inr (Or.inr ⟨h128, rfl⟩))

/-- The dispatcher on a frame whose vector is 128. -/
theorem dispatch_128 (f : InterruptFrame) (ticks : Nat) (h : f.int_no = 128) :
    isr_common_handler (some f) ticks
      = .returned (handle_system_call f) ticks [] := by
  simp only [isr_common_handler, h]
  norm_num

/-- A concrete register file with `rax = 2` (an unknown system-call
number) and all other registers zero. -/
def cexRegs : RegFile :=
  { rax := 2, rbx := 0, rcx := 0, rdx := 0, rbp := 0, rsi := 0, rdi := 0
    r8 := 0, r9 := 0, r10 := 0, r11 := 0, r12 := 0, r13 := 0, r14 := 0
    r15 := 0 }

/-- C1 counterexample: for vector 128 with entry `rax = 2`, the system
call handler writes the sentinel `u64::MAX` into the saved `rax` slot and
the pop sequence restores THAT value, so at `iretq` the `rax` register
does not hold its entry value: the claim fails as stated for the
system-call vector. -/
theorem frame_symmetry_cex :
    isr_common_stub cexRegs 128 0 0 0 0 0 0 0
      = .iretq { cexRegs with rax := U64_MAX } 0 [] ∧
    ({ cexRegs with rax := U64_MAX } : RegFile) ≠ cexRegs := by
  constructor
  · rfl
  · decide

/-- Popping the registers from the frame left by the system-call handler
gives back the entry registers, except that an unknown call number leaves
the sentinel in `rax`. -/
theorem popRegs_syscall (g : RegFile) (n e rip cs rflags rsp ss : Nat) :
    popRegs (handle_system_call (mkFrame g n e rip cs rflags rsp ss))
      = if g.rax = 0 ∨ g.rax = 1 then g else { g with rax := U64_MAX } := by
  have hmk : (mkFrame g n e rip cs rflags rsp ss).rax = g.rax := rfl
  unfold handle_system_call
  by_cases h0 : g.rax = 0
  · rw [hmk, if_pos h0, if_pos (Or.inl h0)]
    rfl
  · by_cases h1 : g.rax = 1
    · rw [hmk, if_neg h0, if_pos h1, if_pos (Or.inr h1)]
      rfl
    · rw [hmk, if_neg h0, if_neg h1, if_neg (by tauto)]
      rfl

/-- C1 amended: the pop order of `isr_common_stub` is the exact mirror of
its push order — reloading the registers from the frame slots inverts the
save (`popRegs` after `mkFrame` is the identity for every register
pattern); hence for every vector other than 128 an `iretq` outcome
restores every general-purpose register bit-for-bit, and for vector 128
the same holds except that `rax` carries `u64::MAX` when the entry call
number was neither 0 nor 1 (the dispatcher intentionally rewrites the
saved `rax` slot). -/
theorem frame_symmetry (g : RegFile)
    (n e rip cs rflags rsp ss ticks : Nat) :
    popRegs (mkFrame g n e rip cs rflags rsp ss) = g ∧
    (n ≠ 128 → ∀ r t w,
      isr_common_stub g n e rip cs rflags rsp ss ticks = .iretq r t w →
        r = g) ∧
    isr_common_stub g 128 e rip cs rflags rsp ss ticks
      = .iretq
          (if g.rax = 0 ∨ g.rax = 1 then g else { g with rax := U64_MAX })
          ticks [] := by
  refine ⟨rfl, ?_, ?_⟩
  · intro hn r t w h
    unfold isr_common_stub at h
    rcases dispatch_cases (mkFrame g n e rip cs rflags rsp ss) ticks with
      hc | ⟨t', w', hc⟩ | ⟨h128, hc⟩
    · rw [hc] at h
      exact absurd h (by simp)
    · rw [hc] at h
      simp only [IsrOutcome.iretq.injEq] at h
      exact h.1 ▸ rfl
    · exact absurd h128 hn
  · unfold isr_common_stub
    rw [dispatch_128 (mkFrame g 128 e rip cs rflags rsp ss) ticks rfl]
    show IsrOutcome.iretq
        (popRegs (handle_system_call (mkFrame g 128 e rip cs rflags rsp ss)))
        ticks [] = _
    rw [popRegs_syscall]

/-- Witness for `frame_symmetry`: at vector 33 every register is restored
(applied to a concrete run), and at vector 128 with call number 2 the
outcome carries the sentinel in `rax`. -/
theorem frame_symmetry_witness :
    popRegs (mkFrame cexRegs 33 0 1 2 3 4 5) = cexRegs ∧
    isr_common_stub cexRegs 128 0 1 2 3 4 5 9
      = .iretq { cexRegs with rax := U64_MAX } 9 [] := by
  have h33 := frame_symmetry cexRegs 33 0 1 2 3 4 5 9
  have h128 := frame_symmetry cexRegs 128 0 1 2 3 4 5 9
  refine ⟨h33.1, ?_⟩
  have h3 := h128.2.2
  norm_num [cexRegs] at h3
  exact h3

/-- C4: a dispatch at vector 32 increments the tick counter by exactly
one, sends the end-of-interrupt acknowledgment for line 0 (cascade chip
only), returns the frame untouched and never halts. -/
theorem timer_vector_dispatch (f : InterruptFrame) (ticks : Nat)
    (h : f.int_no = 32) :
    isr_common_handler (some f) ticks
      = .returned f (ticks + 1) (Pic.send_eoi 0) ∧
    Pic.send_eoi 0 = [(0x20, 0x20)] ∧
    isr_common_handler (some f) ticks ≠ .halted := by
  have heq : isr_common_handler (some f) ticks
      = .returned f (ticks + 1) (Pic.send_eoi 0) := by
    simp only [isr_common_handler, h]
    norm_num
  exact ⟨heq, by decide, by rw [heq]; simp⟩

/-- Witness for `timer_vector_dispatch` at a concrete all-zero frame with
vector 32 and tick count 41. -/
theorem timer_vector_dispatch_witness :
    isr_common_handler (some (mkFrame cexRegs 32 0 0 0 0 0 0)) 41
      = .returned (mkFrame cexRegs 32 0 0 0 0 0 0) 42 (Pic.send_eoi 0) :=
  (timer_vector_dispatch (mkFrame cexRegs 32 0 0 0 0 0 0) 41 rfl).1

/-- C8: a dispatch at vector 128 returns normally (never halts) with the
frame as rewritten by `handle_system_call`: an unknown call number
(neither 0 nor 1) writes the sentinel `u64::MAX` into the saved `rax`;
call numbers 0 and 1 leave the frame unchanged. -/
theorem syscall_dispatch (f : InterruptFrame) (ticks : Nat)
    (h : f.int_no = 128) :
    isr_common_handler (some f) ticks
      = .returned (handle_system_call f) ticks [] ∧
    (f.rax ≠ 0 → f.rax ≠ 1 →
      handle_system_call f = { f with rax := U64_MAX }) ∧
    ((f.rax = 0 ∨ f.rax = 1) → handle_system_call f = f) ∧
    isr_common_handler (some f) ticks ≠ .halted := by
  have heq := dispatch_128 f ticks h
  refine ⟨heq, ?_, ?_, by rw [heq]; simp⟩
  · intro h0 h1
    simp [handle_system_call, h0, h1]
  · rintro (h0 | h1)
    · simp [handle_system_call, h0]
    · simp [handle_system_call, h1]

/-- Witness for `syscall_dispatch` at a concrete frame with vector 128
and call number 2. -/
theorem syscall_dispatch_witness :
    handle_system_call (mkFrame cexRegs 128 0 0 0 0 0 0)
      = { mkFrame cexRegs 128 0 0 0 0 0 0 with rax := U64_MAX } :=
  (syscall_dispatch (mkFrame cexRegs 128 0 0 0 0 0 0) 0 rfl).2.1
    (by decide) (by decide)

/-! ## Per-vector entry stubs (`interrupts_asm.rs`, isr0..isr47, isr128) -/

/-- The values each entry stub pushes itself, in push order, transcribed
from the assembly one vector at a time: most stubs do
`push 0` (dummy fault code) then `push N` (vector number); the stubs for
vectors whose fault code the processor already pushed (8, 10, 11, 12, 13,
14, 17, 21, 29, 30) do only `push N`.  `none` for vectors with no stub. -/
def stubOwnPushes : Nat → Option (List Nat)
  | 0 => some [0, 0]
  | 1 => some [0, 1]
  | 2 => some [0, 2]
  | 3 => some [0, 3]
  | 4 => some [0, 4]
  | 5 => some [0, 5]
  | 6 => some [0, 6]
  | 7 => some [0, 7]
  | 8 => some [8]
  | 9 => some [0, 9]
  | 10 => some [10]
  | 11 => some [11]
  | 12 => some [12]
  | 13 => some [13]
  | 14 => some [14]
  | 15 => some [0, 15]
  | 16 => some [0, 16]
  | 17 => some [17]
  | 18 => some [0, 18]
  | 19 => some [0, 19]
  | 20 => some [0, 20]
  | 21 => some [21]
  | 22 => some [0, 22]
  | 23 => some [0, 23]
  | 24 => some [0, 24]
  | 25 => some [0, 25]
  | 26 => some [0, 26]
  | 27 => some [0, 27]
  | 28 => some [0, 28]
  | 29 => some [29]
  | 30 => some [30]
  | 31 => some [0, 31]
  | 32 => some [0, 32]
  | 33 => some [0, 33]
  | 34 => some [0, 34]
  | 35 => some [0, 35]
  | 36 => some [0, 36]
  | 37 => some [0, 37]
  | 38 => some [0, 38]
  | 39 => some [0, 39]
  | 40 => some [0, 40]
  | 41 => some [0, 41]
  | 42 => some [0, 42]
  | 43 => some [0, 43]
  | 44 => some [0, 44]
  | 45 => some [0, 45]
  | 46 => some [0, 46]
  | 47 => some [0, 47]
  | 128 => some [0, 128]
  | _ => none

/-- The vectors for which the processor itself pushes a fault code, as
the claim lists them (an architecture fact, not code of the repository).
-/
def errorCodeVectors : List Nat := [8, 10, 11, 12, 13, 14, 17, 21, 29, 30]

/-- The stack as the shared landing sequence sees it, top of stack first:
what the stub pushed (reversed into top-first order) on top of the fault
code the processor pushed for the vectors that get one.  `cpuErr` is that
processor-pushed fault code. -/
def stackAfterStub (n cpuErr : Nat) : Option (List Nat) :=
  (stubOwnPushes n).map (fun p =>
    p.reverse ++ (if n ∈ errorCodeVectors then [cpuErr] else []))

/-- C3: for every vector 0-47, the stub of a fault-code vector (8, 10,
11, 12, 13, 14, 17, 21, 29, 30) pushes exactly one value, the vector
number, while every other stub pushes a zero fault code and then the
vector number; in both cases the two values on top of the stack are the
vector number and then the fault code, matching the head of the
`InterruptFrame` layout (`int_no` immediately below `err_code`). -/
theorem stub_frame_layout (cpuErr : Nat) : ∀ n < 48,
    (n ∈ errorCodeVectors → stubOwnPushes n = some [n]) ∧
    (n ∉ errorCodeVectors → stubOwnPushes n = some [0, n]) ∧
    stackAfterStub n cpuErr
      = some [n, if n ∈ errorCodeVectors then cpuErr else 0] := by
  intro n hn
  interval_cases n <;>
    simp [stubOwnPushes, stackAfterStub, errorCodeVectors]

/-- Witness for `stub_frame_layout` at the page-fault vector 14 with
processor fault code 6. -/
theorem stub_frame_layout_witness :
    stackAfterStub 14 6 = some [14, 6] := by
  have h := (stub_frame_layout 6 14 (by decide)).2.2
  simpa using h

/-! ## Descriptor table builder (`idt.rs`) -/

namespace Idt

/-- A trampoline entry point as referenced by the table builder: one of
the assembly labels `isr0` .. `isr47` / `isr128`, or the Rust function
`default_isr` defined inside `idt.rs::init`. -/
inductive EntryRef where
  | isr (n : Nat)
  | defaultStub
deriving DecidableEq

/-- The vector-to-handler assignment `idt.rs::init` performs: the 48
explicit statements `IDT[i].set_handler(isr_i, ...)` for `i = 0 .. 47`,
then the loop `for i in 48..256` installing `default_isr` for every
remaining entry — including vector 128. -/
def handlerFor (i : Nat) : EntryRef :=
  if i < 48 then .isr i else .defaultStub

/-- The canonical vector map as the claim states it: `isr0` .. `isr47`
for vectors 0-47, the system-call trampoline `isr128` for vector 128, and
the shared default stub for 48-127 and 129-255.  Follows the words of the
spec, for comparison with `handlerFor`. -/
def specCanonicalMap (i : Nat) : EntryRef :=
  if i < 48 then .isr i
  else if i = 128 then .isr 128
  else .defaultStub

/-- One 16-byte descriptor, fields as in `idt.rs::IdtEntry`. -/
structure Entry where
  offset_low : Nat
  selector : Nat
  ist : Nat
  flags : Nat
  offset_mid : Nat
  offset_high : Nat
  reserved : Nat
deriving DecidableEq

/-- `idt.rs::IdtEntry::set_handler`: splits the handler address into the
three offset fields (`& 0xFFFF` and `>> 16` on unsigned integers are
`% 2 ^ 16` and `/ 2 ^ 16`), stores the selector and flags, zeroes the
stack-table index and the reserved word. -/
def set_handler (offset selector flags : Nat) : Entry :=
  { offset_low := offset % 2 ^ 16
    selector := selector
    ist := 0
    flags := flags
    offset_mid := offset / 2 ^ 16 % 2 ^ 16
    offset_high := offset / 2 ^ 32 % 2 ^ 32
    reserved := 0 }

/-- The three offset fields recombined,
`offset_low | offset_mid << 16 | offset_high << 32`. -/
def recombine (e : Entry) : Nat :=
  e.offset_low ||| (e.offset_mid <<< 16) ||| (e.offset_high <<< 32)

end Idt

/-- Splitting a 64-bit handler address with `set_handler` and
recombining the three offset fields gives the address back, and the
descriptor of a non-null handler is not all-zero (its offset fields are
not all zero). -/
theorem set_handler_recombine (offset selector flags : Nat)
    (h : offset < 2 ^ 64) :
    Idt.recombine (Idt.set_handler offset selector flags) = offset ∧
    (offset ≠ 0 → Idt.recombine (Idt.set_handler offset selector flags) ≠ 0) := by
  have hrec : Idt.recombine (Idt.set_handler offset selector flags) = offset := by
    unfold Idt.recombine Idt.set_handler
    apply Nat.eq_of_testBit_eq
    intro i
    simp only [Nat.testBit_or, Nat.testBit_shiftLeft, Nat.testBit_mod_two_pow,
      ← Nat.shiftRight_eq_div_pow, Nat.testBit_shiftRight]
    by_cases h1 : i < 16
    · have h2 : ¬ 16 ≤ i := by omega
      have h3 : ¬ 32 ≤ i := by omega
      simp [h1, h2, h3]
    · by_cases h4 : i < 32
      · have h2 : 16 ≤ i := by omega
        have h3 : ¬ 32 ≤ i := by omega
        have h5 : i - 16 < 16 := by omega
        have h6 : 16 + (i - 16) = i := by omega
        simp [h1, h2, h3, h5, h6]
      · by_cases h7 : i < 64
        · have h2 : 16 ≤ i := by omega
          have h3 : 32 ≤ i := by omega
          have h5 : ¬ i - 16 < 16 := by omega
          have h8 : i - 32 < 32 := by omega
          have h9 : 32 + (i - 32) = i := by omega
          simp [h1, h2, h3, h5, h8, h9]
        · have h2 : 16 ≤ i := by omega
          have h3 : 32 ≤ i := by omega
          have h5 : ¬ i - 16 < 16 := by omega
          have h8 : ¬ i - 32 < 32 := by omega
          have hoff : Nat.testBit offset i = false :=
            Nat.testBit_lt_two_pow (Nat.lt_of_lt_of_le h (Nat.pow_le_pow_right (by omega) (by omega)))
          simp [h1, h2, h3, h5, h8, hoff]
  exact ⟨hrec, fun hne => by rw [hrec]; exact hne⟩

set_option maxRecDepth 10000 in
/-- C2 failing-input evaluation: `idt::init` agrees with the canonical
vector map of the claim on every vector except 128, where it installs the
shared default stub instead of the system-call trampoline `isr128` (the
`for i in 48..256` loop covers 128, and `isr128`, though defined in the
assembly, is never referenced by the builder). -/
theorem idt_vector_map :
    (∀ i : Fin 256, Idt.handlerFor i.val = Idt.specCanonicalMap i.val ∨ i.val = 128) ∧
    Idt.handlerFor 128 = Idt.EntryRef.defaultStub ∧
    Idt.specCanonicalMap 128 = Idt.EntryRef.isr 128 ∧
    Idt.EntryRef.defaultStub ≠ Idt.EntryRef.isr 128 := by
  refine ⟨by decide, by decide, by decide, by decide⟩
